import Mathlib

/-!
Verification of the reference-resolution workflow of
`importing_SimaPro_files.py` (SimaPro CSV import notebook).

The notebook sequences calls into an importer library.  The linker
operations (`match_database`, `statistics`, `write_database`) are not part
of the repository source, so they are modelled from the spec (section 4.1);
the notebook's own loops (the biosphere override, the electricity override,
the search loop, and the order of calls on the two sessions `spi` and
`ext_spi`) are embedded directly from the source.
-/

namespace SimaProImport

/-- A concrete identifier of an entry in some Database: (database name, code). -/
abbrev Key := String × String

/-- Matching fields configurable for `match(pool, fields)` (spec section 4.1). -/
inductive MatchField where
  | name
  | unit
  | location
  | categories
  | refProduct
deriving DecidableEq, Repr

/-- Value of a matching field: `categories` is a tuple of strings, the rest
are plain strings. -/
abbrev FieldVal := String ⊕ List String

/-- An Exchange: a reference from a Process to a Flow, with descriptive
fields used for matching, a `type` tag, and once resolved an `input`
pointing to a concrete key (spec section 3). -/
structure Exchange where
  name : String
  unit : String
  location : String
  categories : List String
  refProduct : String
  type : String
  input : Option Key
deriving DecidableEq, Repr

/-- A Flow/Process entry of a candidate pool: descriptive fields plus the
stable key identifying it in its Database (spec section 3). -/
structure Entry where
  name : String
  unit : String
  location : String
  categories : List String
  refProduct : String
  key : Key
deriving DecidableEq, Repr

/-- A node of the import batch (a product or process dataset): descriptive
fields, its eventual key, a `type` tag and its owned exchanges. -/
structure Node where
  name : String
  unit : String
  location : String
  categories : List String
  refProduct : String
  key : Key
  type : String
  exchanges : List Exchange
deriving DecidableEq, Repr

/-- The entry a node of the batch contributes to the self-matching pool. -/
def Node.toEntry (n : Node) : Entry :=
  { name := n.name, unit := n.unit, location := n.location,
    categories := n.categories, refProduct := n.refProduct, key := n.key }

/-- Value of a matching field on an Exchange. -/
def fieldValX : MatchField → Exchange → FieldVal
  | .name, x => .inl x.name
  | .unit, x => .inl x.unit
  | .location, x => .inl x.location
  | .categories, x => .inr x.categories
  | .refProduct, x => .inl x.refProduct

/-- Value of a matching field on a pool Entry. -/
def fieldValE : MatchField → Entry → FieldVal
  | .name, c => .inl c.name
  | .unit, c => .inl c.unit
  | .location, c => .inl c.location
  | .categories, c => .inr c.categories
  | .refProduct, c => .inl c.refProduct

/-- Candidate key of an Exchange from the configured fields (spec 4.1). -/
def keyOfX (fields : List MatchField) (x : Exchange) : List FieldVal :=
  fields.map (fieldValX · x)

/-- Candidate key of a pool Entry from the configured fields (spec 4.1). -/
def keyOfE (fields : List MatchField) (c : Entry) : List FieldVal :=
  fields.map (fieldValE · c)

/-- Modelled from the spec: the pool entries whose key equals the
Exchange's key under exact equality on every configured field
(`match_database` candidate scan, spec section 4.1). -/
def candidates (pool : List Entry) (fields : List MatchField)
    (x : Exchange) : List Entry :=
  pool.filter (fun c => keyOfE fields c = keyOfX fields x)

/-- Modelled from the spec: the effect of `match(pool, fields)` on one
Exchange.  An already-linked Exchange is untouched; an unlinked one
resolves iff exactly one pool entry matches its key, and then gains that
entry's key as `input`; zero or multiple candidates leave it unlinked,
with no exception raised (spec section 4.1). -/
def matchExchange (pool : List Entry) (fields : List MatchField)
    (x : Exchange) : Exchange :=
  match x.input with
  | some _ => x
  | none =>
    match candidates pool fields x with
    | [c] => { x with input := some c.key }
    | _ => x

/-- Modelled from the spec: `match_database(pool, fields)` applied to the
whole import batch, mutating each Exchange's `input` in place
(spec section 4.1). -/
def matchDatabase (pool : List Entry) (fields : List MatchField)
    (data : List Node) : List Node :=
  data.map (fun n => { n with exchanges := n.exchanges.map (matchExchange pool fields) })

/-- Default matching fields: name + unit + categories/location (spec 4.1). -/
def defaultFields : List MatchField :=
  [.name, .unit, .categories, .location]

/-- The self pool: the entries contributed by the batch being imported. -/
def selfPool (data : List Node) : List Entry :=
  data.map Node.toEntry

/-- Modelled from the spec: an Exchange is unlinked when it still misses
`input` (spec sections 3 and 4.1, `unlinked()`). -/
def Exchange.unlinked (x : Exchange) : Bool :=
  x.input.isNone

/-- Modelled from the spec: the unlinked-edge count reported by
`statistics()` (spec section 4.1). -/
def unlinkedCount (data : List Node) : Nat :=
  (data.map (fun n => (n.exchanges.filter Exchange.unlinked).length)).sum

/-- Modelled from the spec: the total edge count reported by `statistics()`. -/
def edgeCount (data : List Node) : Nat :=
  (data.map (fun n => n.exchanges.length)).sum

/-- All keys present in a collection of reference Databases. -/
def allKeys (dbs : List (String × List Entry)) : List Key :=
  (dbs.map (fun db => db.2.map Entry.key)).flatten

/-- Whether an Exchange's `input` resolves to one of the given keys. -/
def resolvesIn (ks : List Key) (x : Exchange) : Bool :=
  match x.input with
  | none => false
  | some k => ks.contains k

/-- The key universe available to the import batch: the keys of the
reference Databases plus the batch's own node keys (the self-matching pool
links exchanges to keys of the database being imported). -/
def universeKeys (dbs : List (String × List Entry)) (data : List Node) : List Key :=
  allKeys dbs ++ data.map Node.key

/-- Whether every Exchange of the batch is linked to a key of the universe. -/
def allLinkedIn (ks : List Key) (data : List Node) : Bool :=
  data.all (fun n => n.exchanges.all (resolvesIn ks))

/-- Modelled from the spec: `write_database()` commits the graph into a
named Database (spec section 4.1, `write()`); the persistence engine
itself is out of scope, so the model records the name and the nodes. -/
def writeDatabase (nm : String) (data : List Node) : String × List Node :=
  (nm, data)

/-- The dangling references of a persisted Database: its exchanges whose
`input` does not resolve to any key of the given universe. -/
def danglingRefs (ks : List Key) (db : String × List Node) : List Exchange :=
  (db.2.map (fun n => n.exchanges.filter (fun x => !resolvesIn ks x))).flatten

/-! ## Definitions embedded from the notebook source -/

/-- The biosphere override loop body of the first session (source lines
146-149): an exchange of type "biosphere" gets `input = co2_flow.key`,
any other exchange is untouched. -/
def spiBiosphereExc (co2Key : Key) (e : Exchange) : Exchange :=
  if e.type = "biosphere" then { e with input := some co2Key } else e

/-- The biosphere override loop of the first session over `spi.data`
(source lines 146-149). -/
def spiBiosphereOverride (co2Key : Key) (data : List Node) : List Node :=
  data.map (fun p => { p with exchanges := p.exchanges.map (spiBiosphereExc co2Key) })

/-- The biosphere override loop body of the second session (source lines
209-213): an exchange of type "biosphere" gets `input = co2_flow.key` and
`categories = co2_flow["categories"]`. -/
def extBiosphereExc (co2Key : Key) (co2Cats : List String) (e : Exchange) : Exchange :=
  if e.type = "biosphere" then { e with input := some co2Key, categories := co2Cats } else e

/-- The biosphere override loop of the second session over `ext_spi.data`
(source lines 209-213). -/
def extBiosphereOverride (co2Key : Key) (co2Cats : List String)
    (data : List Node) : List Node :=
  data.map (fun p => { p with exchanges := p.exchanges.map (extBiosphereExc co2Key co2Cats) })

/-- The SimaPro-style name of the electricity exchange (source line 270). -/
def simaproElecName : String :=
  "Electricity, medium voltage \x7bNO\x7d| market for electricity, medium voltage | Cut-off, U"

/-- The loop variable `r` after `for r in results: if ...: print(r)`
(source lines 262-264): each iteration rebinds `r` to the next yielded
entry and the body only prints, so after the loop `r` holds the last
element of `results` (or is undefined when `results` is empty). -/
def searchLoopVar (results : List Entry) : Option Entry :=
  results.foldl (fun _ r => some r) none

/-- The condition of the `if` inside the search loop (source line 263); it
guards only the `print`. -/
def searchPrintFilter (r : Entry) : Bool :=
  decide (r.location = "NO" ∧ r.name = "market for electricity, medium voltage")

/-- The electricity override loop body (source lines 267-274): an exchange
named `simaproElecName` gets `name = r["name"]` and `input = r.key`. -/
def electricityExc (r : Entry) (e : Exchange) : Exchange :=
  if e.name = simaproElecName then { e with name := r.name, input := some r.key } else e

/-- The electricity override loop over `ext_spi.data` (source lines
267-274). -/
def electricityOverride (r : Entry) (data : List Node) : List Node :=
  data.map (fun d => { d with exchanges := d.exchanges.map (electricityExc r) })

/-- The two importer sessions created by the notebook. -/
inductive Session where
  | spi
  | extSpi
deriving DecidableEq, Repr

/-- The importer-session operations the notebook invokes. -/
inductive NotebookOp where
  | applyStrategies
  | statisticsCall
  | matchSelf
  | matchNamed (db : String)
  | useEcoinventStrategies
  | unlinkedInspect
  | biosphereOverrideLoop
  | electricityOverrideLoop
  | writeDatabaseCall
  | writeExcelCall
deriving DecidableEq, Repr

/-- The ordered sequence of importer-session operations of the notebook
source, transcribed from lines 90-281 of `importing_SimaPro_files.py`. -/
def notebookSteps : List (Session × NotebookOp) :=
  [ (.spi, .applyStrategies),                         -- line 90
    (.spi, .statisticsCall),                          -- line 97
    (.spi, .matchSelf),                               -- line 109
    (.spi, .statisticsCall),                          -- line 113
    (.spi, .matchNamed "ecoinvent-3.11-biosphere"),   -- line 122
    (.spi, .statisticsCall),                          -- line 125
    (.spi, .unlinkedInspect),                         -- line 134
    (.spi, .biosphereOverrideLoop),                   -- lines 146-149
    (.spi, .statisticsCall),                          -- line 152
    (.spi, .writeDatabaseCall),                       -- line 158
    (.extSpi, .applyStrategies),                      -- line 192
    (.extSpi, .statisticsCall),                       -- line 195
    (.extSpi, .matchSelf),                            -- line 202
    (.extSpi, .statisticsCall),                       -- line 205
    (.extSpi, .biosphereOverrideLoop),                -- lines 209-213
    (.extSpi, .matchNamed "ecoinvent-3.11-cutoff"),   -- line 216
    (.extSpi, .statisticsCall),                       -- line 217
    (.extSpi, .useEcoinventStrategies),               -- line 220
    (.extSpi, .applyStrategies),                      -- line 221
    (.extSpi, .statisticsCall),                       -- line 224
    (.extSpi, .unlinkedInspect),                      -- line 231
    (.extSpi, .matchNamed "ecoinvent-3.11-cutoff"),   -- line 235
    (.extSpi, .statisticsCall),                       -- line 238
    (.extSpi, .writeExcelCall),                       -- line 241
    (.extSpi, .electricityOverrideLoop),              -- lines 267-274
    (.spi, .statisticsCall),                          -- line 278
    (.spi, .writeDatabaseCall) ]                      -- line 281

/-! ## Concrete data of the bike scenario

Modelled from the spec: the CSV inventories themselves are not part of the
repository, so the 3-product/3-process bike graph of end-to-end scenario 2
(spec section 8) is built here concretely. -/

/-- Modelled from the spec: a production exchange of the bike graph. -/
def prodExc (nm un : String) : Exchange :=
  { name := nm, unit := un, location := "GLO", categories := [],
    refProduct := nm, type := "production", input := none }

/-- Modelled from the spec: a technosphere input exchange of the bike graph. -/
def techExc (nm un : String) : Exchange :=
  { name := nm, unit := un, location := "GLO", categories := [],
    refProduct := nm, type := "technosphere", input := none }

/-- Modelled from the spec: the CO2 biosphere exchange of CF production. -/
def co2Exc : Exchange :=
  { name := "Carbon dioxide, fossil", unit := "kg", location := "GLO",
    categories := ["air"], refProduct := "", type := "biosphere", input := none }

/-- Modelled from the spec: the electricity exchange of CF production,
carrying the SimaPro-style name that references the external entry. -/
def elecExc : Exchange :=
  { name := simaproElecName, unit := "kWh", location := "NO",
    categories := [], refProduct := "", type := "technosphere", input := none }

/-- Modelled from the spec: the Bike product node. -/
def bikeProductNode : Node :=
  { name := "Bike", unit := "unit", location := "GLO", categories := [],
    refProduct := "Bike", key := ("bike_example", "bike"),
    type := "product", exchanges := [] }

/-- Modelled from the spec: the Carbon fibre product node. -/
def cfProductNode : Node :=
  { name := "Carbon fibre", unit := "kg", location := "GLO", categories := [],
    refProduct := "Carbon fibre", key := ("bike_example", "cf"),
    type := "product", exchanges := [] }

/-- Modelled from the spec: the Natural gas product node. -/
def ngProductNode : Node :=
  { name := "Natural gas", unit := "MJ", location := "GLO", categories := [],
    refProduct := "Natural gas", key := ("bike_example", "ng"),
    type := "product", exchanges := [] }

/-- Modelled from the spec: the Bike production process node. -/
def bikeProductionNode : Node :=
  { name := "Bike production", unit := "unit", location := "GLO", categories := [],
    refProduct := "Bike", key := ("bike_example", "bike-prod"),
    type := "process",
    exchanges := [prodExc "Bike" "unit", techExc "Carbon fibre" "kg"] }

/-- Modelled from the spec: the CF production process node of scenario 2,
with the additional electricity exchange. -/
def cfProductionNode : Node :=
  { name := "CF production", unit := "kg", location := "GLO", categories := [],
    refProduct := "Carbon fibre", key := ("bike_example", "cf-prod"),
    type := "process",
    exchanges := [prodExc "Carbon fibre" "kg", techExc "Natural gas" "MJ",
                  co2Exc, elecExc] }

/-- Modelled from the spec: the NG production process node. -/
def ngProductionNode : Node :=
  { name := "NG Production", unit := "MJ", location := "GLO", categories := [],
    refProduct := "Natural gas", key := ("bike_example", "ng-prod"),
    type := "process", exchanges := [prodExc "Natural gas" "MJ"] }

/-- Modelled from the spec: the scenario-2 import batch (6 nodes, 7 edges). -/
def bike2Data : List Node :=
  [bikeProductNode, cfProductNode, ngProductNode,
   bikeProductionNode, cfProductionNode, ngProductionNode]

/-- The key of the CO2 biosphere flow found at source lines 139-142. -/
def co2Key : Key := ("ecoinvent-3.11-biosphere", "co2-fossil-air")

/-- The categories of the CO2 biosphere flow, `("air",)`. -/
def co2Cats : List String := ["air"]

/-- Modelled from the spec: the external electricity-market entry of the
ecoinvent reference Database. -/
def elecEntry : Entry :=
  { name := "market for electricity, medium voltage", unit := "kilowatt hour",
    location := "NO", categories := [],
    refProduct := "electricity, medium voltage",
    key := ("ecoinvent-3.11-cutoff", "elec-no-mv") }

/-- The field list of the external match at source line 216. -/
def extFields : List MatchField := [.name, .unit, .location, .refProduct]

/-- The slice of the external Database relevant to the scenario. -/
def extPool : List Entry := [elecEntry]

/-- Scenario-2 state after `match_database()` against self (line 202). -/
def scenario2AfterSelf : List Node :=
  matchDatabase (selfPool bike2Data) defaultFields bike2Data

/-- Scenario-2 state after the biosphere override (lines 209-213) and the
external match with the configured fields (line 216). -/
def scenario2AfterMatches : List Node :=
  matchDatabase extPool extFields
    (extBiosphereOverride co2Key co2Cats scenario2AfterSelf)

/-- Scenario-2 state after the manual electricity override (lines 267-274). -/
def scenario2Final : List Node :=
  electricityOverride elecEntry scenario2AfterMatches

/-- Whether the batch still holds an unlinked exchange with the given name. -/
def stillUnlinkedNamed (nm : String) (data : List Node) : Bool :=
  data.any (fun n => n.exchanges.any (fun e => e.name == nm && e.unlinked))

/-! ## Small fixtures used by witnesses -/

/-- A one-entry pool holding a flow named "A". -/
def wPool : List Entry :=
  [{ name := "A", unit := "kg", location := "GLO", categories := [],
     refProduct := "A", key := ("db", "a") }]

/-- A two-entry pool whose entries share every descriptive field. -/
def wPool2 : List Entry :=
  [{ name := "A", unit := "kg", location := "GLO", categories := [],
     refProduct := "A", key := ("db", "a1") },
   { name := "A", unit := "kg", location := "GLO", categories := [],
     refProduct := "A", key := ("db", "a2") }]

/-- An unlinked exchange referencing the flow named "A". -/
def wExc : Exchange :=
  { name := "A", unit := "kg", location := "GLO", categories := [],
    refProduct := "A", type := "technosphere", input := none }

/-- An exchange already linked to an existing key. -/
def wLinked : Exchange :=
  { name := "B", unit := "kg", location := "GLO", categories := [],
    refProduct := "B", type := "technosphere", input := some ("db", "z") }

/-- A biosphere exchange that is already linked to some other key. -/
def wBioLinked : Exchange :=
  { co2Exc with input := some ("old-db", "old-code") }

/-- An electricity-market entry located in NO. -/
def noEntry : Entry :=
  { name := "market for electricity, medium voltage", unit := "kilowatt hour",
    location := "NO", categories := [],
    refProduct := "electricity, medium voltage",
    key := ("ecoinvent-3.11-cutoff", "elec-no") }

/-- An electricity-market entry located in SE, failing the print filter. -/
def seEntry : Entry :=
  { name := "market for electricity, medium voltage", unit := "kilowatt hour",
    location := "SE", categories := [],
    refProduct := "electricity, medium voltage",
    key := ("ecoinvent-3.11-cutoff", "elec-se") }

/-- A search-result list whose last element fails the NO print filter. -/
def wResults : List Entry := [noEntry, seEntry]

/-- A batch with one node whose single exchange is linked to the node's own key. -/
def wWriteData : List Node :=
  [{ name := "Bike", unit := "unit", location := "GLO", categories := [],
     refProduct := "Bike", key := ("bike_example", "bike"),
     type := "product",
     exchanges := [{ name := "Bike", unit := "unit", location := "GLO",
                     categories := [], refProduct := "Bike",
                     type := "production",
                     input := some ("bike_example", "bike") }] }]

/-! ## Theorems -/

/-- Helper: an already-linked exchange is untouched by a match pass. -/
theorem matchExchange_of_some (pool : List Entry) (fields : List MatchField)
    (x : Exchange) (k : Key) (h : x.input = some k) :
    matchExchange pool fields x = x := by
  simp [matchExchange, h]

/-- C1: if `match(P, fields)` resolves an unlinked Exchange, then exactly one
entry of the pool has a key identical to the Exchange's key under exact
equality on every configured field, and the resolved `input` equals that
unique entry's key; with zero or several matching candidates the Exchange
remains unlinked. -/
theorem match_resolves_unique_candidate (pool : List Entry)
    (fields : List MatchField) (x : Exchange) (hu : x.input = none) :
    (∀ k, (matchExchange pool fields x).input = some k →
      ∃ c, candidates pool fields x = [c] ∧ c.key = k ∧
        (candidates pool fields x).length = 1) ∧
    ((candidates pool fields x).length ≠ 1 →
      (matchExchange pool fields x).input = none) := by
  constructor
  · intro k hk
    cases hcand : candidates pool fields x with
    | nil => rw [matchExchange, hu, hcand] at hk; exact absurd (hu ▸ hk) (by simp)
    | cons c t =>
      cases t with
      | nil =>
        rw [matchExchange, hu, hcand] at hk
        simp only [Option.some.injEq] at hk
        exact ⟨c, rfl, hk, rfl⟩
      | cons c2 t2 => rw [matchExchange, hu, hcand] at hk; exact absurd (hu ▸ hk) (by simp)
  · intro hne
    cases hcand : candidates pool fields x with
    | nil => rw [matchExchange, hu, hcand]; exact hu
    | cons c t =>
      cases t with
      | nil => exact absurd (by rw [hcand]; rfl) hne
      | cons c2 t2 => rw [matchExchange, hu, hcand]; exact hu

/-- Witness for C1 at a concrete pool and exchange with a unique candidate. -/
theorem match_resolves_unique_candidate_witness :
    ∃ c, candidates wPool defaultFields wExc = [c] ∧ c.key = ("db", "a") ∧
      (candidates wPool defaultFields wExc).length = 1 :=
  (match_resolves_unique_candidate wPool defaultFields wExc rfl).1
    ("db", "a") (by decide)

/-- Helper: an unlinked Exchange without a unique candidate is unchanged. -/
theorem matchExchange_not_one (pool : List Entry) (fields : List MatchField)
    (x : Exchange) (hu : x.input = none)
    (hc : (candidates pool fields x).length ≠ 1) :
    matchExchange pool fields x = x := by
  cases hcand : candidates pool fields x with
  | nil => rw [matchExchange, hu, hcand]
  | cons c t =>
    cases t with
    | nil => exact absurd (by rw [hcand]; rfl) hc
    | cons c2 t2 => rw [matchExchange, hu, hcand]

/-- C7: with zero matching candidates, or with more than one, a match pass
raises no exception and leaves the Exchange entirely unchanged (ambiguity
is treated identically to no match); totality of `matchExchange` models
the absence of exceptions. -/
theorem match_total_on_zero_or_many (pool : List Entry)
    (fields : List MatchField) (x : Exchange) (hu : x.input = none)
    (hc : (candidates pool fields x).length ≠ 1) :
    matchExchange pool fields x = x :=
  matchExchange_not_one pool fields x hu hc

/-- Witness for C7 at a concrete ambiguous pool (two identical candidates). -/
theorem match_total_on_zero_or_many_witness :
    matchExchange wPool2 defaultFields wExc = wExc :=
  match_total_on_zero_or_many wPool2 defaultFields wExc rfl (by decide)

/-- Helper: a match pass never turns a resolved `input` into `none`. -/
theorem matchExchange_unlinked_mono (pool : List Entry) (fields : List MatchField)
    (x : Exchange) (h : (matchExchange pool fields x).unlinked = true) :
    x.unlinked = true := by
  cases hx : x.input with
  | none => simp [Exchange.unlinked, hx]
  | some k => rw [matchExchange_of_some pool fields x k hx] at h; exact h

/-- C4: across any match call the unlinked-edge count reported by
`statistics()` does not increase, and a match call never clears the
`input` of an already-linked Exchange. -/
theorem match_unlinked_monotone (pool : List Entry) (fields : List MatchField)
    (data : List Node) :
    unlinkedCount (matchDatabase pool fields data) ≤ unlinkedCount data ∧
    ∀ x k, x.input = some k → (matchExchange pool fields x).input = some k := by
  constructor
  · unfold unlinkedCount matchDatabase
    rw [List.map_map]
    apply List.sum_le_sum
    intro n _
    simp only [Function.comp_apply]
    rw [← List.countP_eq_length_filter, ← List.countP_eq_length_filter,
      List.countP_map]
    exact List.countP_mono_left
      (fun x _ hx => matchExchange_unlinked_mono pool fields x hx)
  · intro x k h
    rw [matchExchange_of_some pool fields x k h]; exact h

/-- Witness for C4 at the concrete scenario batch and a linked exchange. -/
theorem match_unlinked_monotone_witness :
    unlinkedCount (matchDatabase wPool defaultFields bike2Data) ≤
      unlinkedCount bike2Data ∧
    (matchExchange wPool defaultFields wLinked).input = some ("db", "z") :=
  ⟨(match_unlinked_monotone wPool defaultFields bike2Data).1,
   (match_unlinked_monotone wPool defaultFields []).2 wLinked ("db", "z") rfl⟩

/-- Helper: one match pass on one Exchange is idempotent. -/
theorem matchExchange_idem (pool : List Entry) (fields : List MatchField)
    (x : Exchange) :
    matchExchange pool fields (matchExchange pool fields x) =
      matchExchange pool fields x := by
  cases hx : x.input with
  | some k =>
    rw [matchExchange_of_some pool fields x k hx,
      matchExchange_of_some pool fields x k hx]
  | none =>
    cases hcand : candidates pool fields x with
    | nil =>
      have h1 := matchExchange_not_one pool fields x hx (by rw [hcand]; simp)
      rw [h1, h1]
    | cons c t =>
      cases t with
      | nil =>
        have h1 : matchExchange pool fields x = { x with input := some c.key } := by
          rw [matchExchange, hx, hcand]
        rw [h1]
        exact matchExchange_of_some pool fields _ c.key rfl
      | cons c2 t2 =>
        have h1 := matchExchange_not_one pool fields x hx (by rw [hcand]; simp)
        rw [h1, h1]

/-- C5: a second `match(P, fields)` call with identical arguments changes
nothing: the state after two successive identical match passes equals the
state after the first. -/
theorem match_idempotent (pool : List Entry) (fields : List MatchField)
    (data : List Node) :
    matchDatabase pool fields (matchDatabase pool fields data) =
      matchDatabase pool fields data := by
  unfold matchDatabase
  rw [List.map_map]
  apply List.map_congr_left
  intro n _
  simp only [Function.comp_apply, List.map_map]
  congr 1
  apply List.map_congr_left
  intro x _
  exact matchExchange_idem pool fields x

/-- Helper: the first session's override loop body is idempotent. -/
theorem spiBiosphereExc_idem (k : Key) (e : Exchange) :
    spiBiosphereExc k (spiBiosphereExc k e) = spiBiosphereExc k e := by
  by_cases h : e.type = "biosphere" <;> simp [spiBiosphereExc, h]

/-- Helper: the second session's override loop body is idempotent. -/
theorem extBiosphereExc_idem (k : Key) (cats : List String) (e : Exchange) :
    extBiosphereExc k cats (extBiosphereExc k cats e) =
      extBiosphereExc k cats e := by
  by_cases h : e.type = "biosphere" <;> simp [extBiosphereExc, h]

/-- C6: re-running the biosphere override loop (assigning
`input = co2_flow.key` to every exchange of type "biosphere") is a no-op
the second time, in both sessions. -/
theorem biosphere_override_idempotent (k : Key) (cats : List String)
    (data : List Node) :
    spiBiosphereOverride k (spiBiosphereOverride k data) =
      spiBiosphereOverride k data ∧
    extBiosphereOverride k cats (extBiosphereOverride k cats data) =
      extBiosphereOverride k cats data := by
  constructor
  · unfold spiBiosphereOverride
    rw [List.map_map]
    apply List.map_congr_left
    intro n _
    simp only [Function.comp_apply, List.map_map]
    congr 1
    apply List.map_congr_left
    intro x _
    exact spiBiosphereExc_idem k x
  · unfold extBiosphereOverride
    rw [List.map_map]
    apply List.map_congr_left
    intro n _
    simp only [Function.comp_apply, List.map_map]
    congr 1
    apply List.map_congr_left
    intro x _
    exact extBiosphereExc_idem k cats x

/-- C10: both biosphere override loops assign `input = co2_flow.key` to
every exchange of type "biosphere" unconditionally — also to exchanges
that already carry an `input` — leaving every other field of the
overridden exchange unchanged, except that the second session's loop also
overwrites `categories` with the flow's categories; exchanges of any
other type are left entirely unchanged. -/
theorem biosphere_override_effects (k : Key) (cats : List String)
    (e e2 : Exchange) (h : e.type = "biosphere")
    (h2 : e2.type ≠ "biosphere") :
    spiBiosphereExc k e = { e with input := some k } ∧
    extBiosphereExc k cats e = { e with input := some k, categories := cats } ∧
    spiBiosphereExc k e2 = e2 ∧
    extBiosphereExc k cats e2 = e2 := by
  refine ⟨?_, ?_, ?_, ?_⟩ <;>
    simp [spiBiosphereExc, extBiosphereExc, h, h2]

/-- Witness for C10 at a concrete already-linked biosphere exchange and a
concrete technosphere exchange. -/
theorem biosphere_override_effects_witness :
    spiBiosphereExc co2Key wBioLinked = { wBioLinked with input := some co2Key } ∧
    extBiosphereExc co2Key co2Cats wBioLinked =
      { wBioLinked with input := some co2Key, categories := co2Cats } ∧
    spiBiosphereExc co2Key elecExc = elecExc ∧
    extBiosphereExc co2Key co2Cats elecExc = elecExc :=
  biosphere_override_effects co2Key co2Cats wBioLinked elecExc rfl (by decide)

/-- Helper: folding "bind the loop variable" over a list keeps the last
element, whatever the initial value. -/
theorem foldl_bind_loop_var (l : List Entry) (init : Option Entry) :
    l.foldl (fun _ r => some r) init =
      match l.getLast? with
      | none => init
      | some a => some a := by
  induction l generalizing init with
  | nil => rfl
  | cons a t ih =>
    rw [List.foldl_cons, ih (some a)]
    cases t with
    | nil => rfl
    | cons b t2 =>
      rw [List.getLast?_cons_cons]
      cases h : (b :: t2).getLast? with
      | none => rw [List.getLast?_eq_none_iff] at h; exact absurd h (by simp)
      | some c => rfl

/-- Helper: the leftover loop variable of the search loop is the last
search result, independently of the print filter. -/
theorem searchLoopVar_eq_getLast (results : List Entry) :
    searchLoopVar results = results.getLast? := by
  rw [searchLoopVar, foldl_bind_loop_var]
  cases results.getLast? <;> rfl

/-- C9: the electricity override assigns `input = r.key` where `r` is the
loop variable left over from the search loop, i.e. the last element
yielded by the search — the `location == NO` condition guards only the
`print` and plays no part in selecting the assigned entry — and the
override also overwrites the exchange's `name` with `r["name"]`. -/
theorem electricity_override_assigns_loop_leftover (results : List Entry)
    (r : Entry) (hr : searchLoopVar results = some r) (e : Exchange)
    (he : e.name = simaproElecName) :
    results.getLast? = some r ∧
    (electricityExc r e).input = some r.key ∧
    (electricityExc r e).name = r.name := by
  refine ⟨?_, ?_, ?_⟩
  · rw [← searchLoopVar_eq_getLast]; exact hr
  · simp [electricityExc, he]
  · simp [electricityExc, he]

/-- Witness for C9: with two search results whose last element fails the
NO print filter, the override still assigns that last element's key. -/
theorem electricity_override_assigns_loop_leftover_witness :
    wResults.getLast? = some seEntry ∧
    (electricityExc seEntry elecExc).input = some seEntry.key ∧
    (electricityExc seEntry elecExc).name = seEntry.name :=
  electricity_override_assigns_loop_leftover wResults seEntry rfl elecExc rfl

/-- C3: when zero Exchanges are unlinked at the time of `write()`, the
persisted Database contains no dangling references — every persisted
Exchange's `input` resolves to an existing key of the reference Databases
or of the written Database itself; when the precondition is violated, the
persisted Database does contain dangling references. -/
theorem writeDatabase_dangling_iff (dbs : List (String × List Entry))
    (nm : String) (data : List Node) :
    (allLinkedIn (universeKeys dbs data) data = true →
      danglingRefs (universeKeys dbs data) (writeDatabase nm data) = []) ∧
    (allLinkedIn (universeKeys dbs data) data = false →
      danglingRefs (universeKeys dbs data) (writeDatabase nm data) ≠ []) := by
  constructor
  · intro hall
    rw [allLinkedIn, List.all_eq_true] at hall
    unfold danglingRefs writeDatabase
    rw [List.flatten_eq_nil_iff]
    intro l hl
    rw [List.mem_map] at hl
    obtain ⟨n, hn, rfl⟩ := hl
    rw [List.filter_eq_nil_iff]
    intro x hx
    have := List.all_eq_true.mp (hall n hn) x hx
    simp [this]
  · intro hall hdang
    rw [allLinkedIn, List.all_eq_false] at hall
    obtain ⟨n, hn, hnall⟩ := hall
    rw [Bool.not_eq_true, List.all_eq_false] at hnall
    obtain ⟨x, hx, hxr⟩ := hnall
    have hmem : x ∈ danglingRefs (universeKeys dbs data) (writeDatabase nm data) := by
      unfold danglingRefs writeDatabase
      rw [List.mem_flatten]
      refine ⟨n.exchanges.filter (fun y => !resolvesIn (universeKeys dbs data) y),
        List.mem_map.mpr ⟨n, hn, rfl⟩, ?_⟩
      rw [List.mem_filter]
      exact ⟨hx, by simp [Bool.not_eq_true] at hxr ⊢; exact hxr⟩
    rw [hdang] at hmem
    exact absurd hmem (List.not_mem_nil x)

/-- Witness for C3: a fully-linked one-node batch persists with no
dangling references, while the unlinked scenario batch would persist with
dangling references. -/
theorem writeDatabase_dangling_iff_witness :
    danglingRefs (universeKeys [] wWriteData) (writeDatabase "bike_example" wWriteData) = [] ∧
    danglingRefs (universeKeys [] bike2Data) (writeDatabase "bike_example" bike2Data) ≠ [] :=
  ⟨(writeDatabase_dangling_iff [] "bike_example" wWriteData).1 (by decide),
   (writeDatabase_dangling_iff [] "bike_example" bike2Data).2 (by decide)⟩

/-- C2: in the concrete scenario-2 bike graph (6 nodes, 7 edges, one
external electricity reference), the electricity exchange is still
unlinked after the self match and after the external match with fields
name/unit/location/reference product; after the manual override assigns
its `input` the external entry's key, the session reports 0 unlinked
edges. -/
theorem scenario2_end_to_end :
    bike2Data.length = 6 ∧
    edgeCount bike2Data = 7 ∧
    stillUnlinkedNamed simaproElecName scenario2AfterSelf = true ∧
    stillUnlinkedNamed simaproElecName scenario2AfterMatches = true ∧
    unlinkedCount scenario2Final = 0 :=
  ⟨rfl, rfl, rfl, rfl, rfl⟩

/-- C8: in the transcribed notebook call sequence, every
`write_database()` call is made on the first session `spi` (and there are
two of them, so the first inventory's database is written a second time),
the final `statistics()` call and the final step are on `spi`, and the
only persistent output produced from `ext_spi` is an Excel export. -/
theorem notebook_writes_on_first_session :
    (notebookSteps.filter
      (fun s => decide (s.2 = NotebookOp.writeDatabaseCall))).map Prod.fst =
      [Session.spi, Session.spi] ∧
    (notebookSteps.filter
      (fun s => decide (s.2 = NotebookOp.statisticsCall))).getLast? =
      some (Session.spi, NotebookOp.statisticsCall) ∧
    notebookSteps.getLast? = some (Session.spi, NotebookOp.writeDatabaseCall) ∧
    (Session.extSpi, NotebookOp.writeExcelCall) ∈ notebookSteps :=
  ⟨rfl, rfl, rfl, by decide⟩

end SimaProImport
